import Mathlib

/-!
Verification of the LoudSync audio pipeline core
(src/audioops/core.py, src/audioops/loudsync_legacy.py, src/audioops/pipeline.py)
against its natural-language specification.

External subprocess calls (ffmpeg / ffprobe) are modelled by explicit
environment parameters; commands that would be passed to the external tool
are modelled as structured values rather than rendered strings.
-/

/-- A filesystem path, as used by the pipeline: parent directory, stem and
suffix (extension, dot included), mirroring pathlib.Path fields accessed by
the code. -/
structure FsPath where
  dir : String
  stem : String
  suffix : String
  deriving DecidableEq

/-! ## core.py: fade_file -/

/-- An entry of the ffmpeg -af filter list built by fade_file:
afade=t=in:st=0:d=fin or afade=t=out:st=st_out:d=fout. -/
inductive AFilter where
  | fadeIn (st d : ℚ)
  | fadeOut (st d : ℚ)
  deriving DecidableEq

/-- The -af argument: either the explicit identity filter anull or a
comma-joined chain of fade filters. -/
inductive AF where
  | anull
  | chain (fs : List AFilter)
  deriving DecidableEq

/-- Fade-out start-time resolution of fade_file (core.py lines 28-33):
if fade_out_from_end_sec is given, max(dur - it, 0); elif fade_out_start_sec
is given, max(it, 0); else max(dur - fout, 0). -/
def fade_out_start (dur fout : ℚ)
    (fade_out_from_end_sec fade_out_start_sec : Option ℚ) : ℚ :=
  match fade_out_from_end_sec with
  | some f => max (dur - f) 0
  | none =>
    match fade_out_start_sec with
    | some s => max s 0
    | none => max (dur - fout) 0

/-- The filter list built by fade_file (core.py lines 35-39): a fade-in at
st=0 when fin > 0, then a fade-out at the resolved start when fout > 0. -/
def fade_filters (fin fout st_out : ℚ) : List AFilter :=
  (if fin > 0 then [AFilter.fadeIn 0 fin] else []) ++
    (if fout > 0 then [AFilter.fadeOut st_out fout] else [])

/-- core.py line 42: the -af value is the joined filter list, or anull when
the list is empty. -/
def fade_af (filters : List AFilter) : AF :=
  if filters = [] then AF.anull else AF.chain filters

/-- core.py lines 45-51: codec auto-selection from the output extension
(lower-cased); otherwise the caller-supplied codec. -/
def fade_codec (outfile_ext codec : String) : String :=
  if outfile_ext.toLower = ".wav" then "pcm_s16le"
  else if outfile_ext.toLower = ".mp3" then "libmp3lame"
  else if outfile_ext.toLower = ".m4a" ∨ outfile_ext.toLower = ".aac" then "aac"
  else codec

/-- The single ffmpeg invocation issued by fade_file (core.py line 53). -/
structure FadeCmd where
  infile : FsPath
  outfile : FsPath
  af : AF
  codec : String
  deriving DecidableEq

/-- fade_file (core.py lines 20-54). `dur` is the probed duration of the
input (duration_sec, an external probe). Milliseconds are converted to
seconds and clamped at 0, the fade-out start is resolved, the filter list is
built, and one ffmpeg command is issued. -/
def fade_file (dur : ℚ) (infile outfile : FsPath)
    (fade_in_ms fade_out_ms : ℚ)
    (fade_out_from_end_sec fade_out_start_sec : Option ℚ)
    (codec : String) : FadeCmd :=
  let fin := max (fade_in_ms / 1000) 0
  let fout := max (fade_out_ms / 1000) 0
  let st_out := fade_out_start dur fout fade_out_from_end_sec fade_out_start_sec
  let filters := fade_filters fin fout st_out
  { infile := infile
    outfile := outfile
    af := fade_af filters
    codec := fade_codec outfile.suffix codec }

/-! ## core.py: crossfade_sequence -/

/-- The stream label of input i in the filter graph. -/
def inLabel (i : Nat) : String := "[" ++ toString i ++ ":a]"

/-- The label of the intermediate result of merge node i. -/
def outLabel (i : Nat) : String := "[a" ++ toString i ++ "]"

/-- One acrossfade node of the filter_complex graph:
left + right + acrossfade=d=overlap:c1=c1:c2=c2 + out. -/
structure Chain where
  left : String
  right : String
  out : String
  overlap : ℚ
  c1 : String
  c2 : String
  deriving DecidableEq

/-- The loop of crossfade_sequence (core.py lines 63-69): starting from
prev, for r remaining iterations with counter i, emit a node merging prev
with input i into the label of node i, threading the node output as the new
prev. Returns the node list and the final prev (used for -map). -/
def chainsAux (overlap : ℚ) (c1 c2 : String) :
    String → Nat → Nat → List Chain × String
  | prev, _, 0 => ([], prev)
  | prev, i, r + 1 =>
    let out := outLabel i
    let rest := chainsAux overlap c1 c2 out (i + 1) r
    ({ left := prev, right := inLabel i, out := out,
       overlap := overlap, c1 := c1, c2 := c2 } :: rest.1, rest.2)

/-- The single ffmpeg invocation issued by crossfade_sequence (core.py
lines 60-73): all inputs, the full filter_complex node graph, the -map
label, codec and output file. -/
structure CrossfadeCmd where
  inputs : List FsPath
  filter_complex : List Chain
  mapLabel : String
  codec : String
  outfile : FsPath
  deriving DecidableEq

/-- crossfade_sequence (core.py lines 57-73). The assert on line 59 fires
before any command is built; on success the returned list holds the run()
invocations made — exactly one, carrying the whole graph. -/
def crossfade_sequence (inputs : List FsPath) (outfile : FsPath)
    (overlap_sec : ℚ) (curve1 curve2 codec : String) :
    Except Unit (List CrossfadeCmd) :=
  if 2 ≤ inputs.length then
    let cp := chainsAux overlap_sec curve1 curve2 (inLabel 0) 1 (inputs.length - 1)
    Except.ok [{ inputs := inputs, filter_complex := cp.1, mapLabel := cp.2,
                 codec := codec, outfile := outfile }]
  else
    Except.error ()

/-! ## loudsync_legacy.py: measure_loudness -/

/-- A JSON value as it occurs in the loudnorm statistics block. A string
value carries the result of applying Python float() to it: some q when the
string parses as that number, none when float() would raise ValueError. -/
inductive Json where
  | num (x : ℚ)
  | str (s : String) (numval : Option ℚ)
  | bool (b : Bool)
  | null
  deriving DecidableEq

/-- A parsed JSON object: association list of keys to values. -/
def JsonObj : Type := List (String × Json)

instance : DecidableEq JsonObj := by
  unfold JsonObj
  infer_instance

/-- Outcome of Python float() on a JSON value: numbers and numeric strings
convert (booleans convert to 0/1), non-numeric strings raise ValueError,
null (None) raises TypeError. -/
inductive PyFloat where
  | ok (x : ℚ)
  | valueError
  | typeError
  deriving DecidableEq

/-- Python float() applied to a JSON value. -/
def pyFloat : Json → PyFloat
  | Json.num x => PyFloat.ok x
  | Json.str _ (some x) => PyFloat.ok x
  | Json.str _ none => PyFloat.valueError
  | Json.bool b => PyFloat.ok (if b then 1 else 0)
  | Json.null => PyFloat.typeError

/-- Python dict.get(k, d): the value at k, or the default d when absent. -/
def jget (j : JsonObj) (k : String) (d : Json) : Json :=
  match List.lookup k j with
  | some v => v
  | none => d

/-- The status field of a measurement result dict (loudsync_legacy.py):
OK, a JSON_ERROR string, or an FFMPEG_ERROR string. -/
inductive MeasureStatus where
  | ok
  | jsonError
  | ffmpegError
  deriving DecidableEq

/-- The dict returned by measure_loudness: three numeric fields (None on
error), a status, and the raw parsed block (None on error). -/
structure Measurement where
  integrated_lufs : Option ℚ
  loudness_range : Option ℚ
  true_peak_dbtp : Option ℚ
  status : MeasureStatus
  raw_json : Option JsonObj
  deriving DecidableEq

/-- The measurement dict with all numeric fields None, for a given error
status. -/
def errorMeasurement (st : MeasureStatus) : Measurement :=
  { integrated_lufs := none, loudness_range := none, true_peak_dbtp := none,
    status := st, raw_json := none }

/-- How a call to measure_loudness ends: it returns a dict, or an exception
escapes it (a TypeError from float(None) is not in the caught exception
tuple). -/
inductive MeasureOut where
  | ret (m : Measurement)
  | crash
  deriving DecidableEq

/-- measure_loudness after subprocess invocation and JSON-block extraction
(loudsync_legacy.py lines 88-107), as a function of the json.loads outcome
on the extracted text: none means JSONDecodeError. The three float()
conversions run left to right with default 0 for absent keys; a ValueError
is caught and yields the JSON_ERROR dict, a TypeError escapes. -/
def measure_from_json (parsed : Option JsonObj) : MeasureOut :=
  match parsed with
  | none => MeasureOut.ret (errorMeasurement MeasureStatus.jsonError)
  | some j =>
    match pyFloat (jget j "input_i" (Json.num 0)) with
    | PyFloat.typeError => MeasureOut.crash
    | PyFloat.valueError => MeasureOut.ret (errorMeasurement MeasureStatus.jsonError)
    | PyFloat.ok i =>
      match pyFloat (jget j "input_lra" (Json.num 0)) with
      | PyFloat.typeError => MeasureOut.crash
      | PyFloat.valueError => MeasureOut.ret (errorMeasurement MeasureStatus.jsonError)
      | PyFloat.ok lra =>
        match pyFloat (jget j "input_tp" (Json.num 0)) with
        | PyFloat.typeError => MeasureOut.crash
        | PyFloat.valueError => MeasureOut.ret (errorMeasurement MeasureStatus.jsonError)
        | PyFloat.ok tp =>
          MeasureOut.ret
            { integrated_lufs := some i, loudness_range := some lra,
              true_peak_dbtp := some tp, status := MeasureStatus.ok,
              raw_json := some j }

/-! ## loudsync_legacy.py: normalize_audio -/

/-- Python truthiness of measure_result raw_json as tested on line 132:
None and the empty dict are falsy. -/
def rawFalsy : Option JsonObj → Bool
  | none => true
  | some [] => true
  | some (_ :: _) => false

/-- The keys read by subscript from the raw block when building the
second-pass command (loudsync_legacy.py lines 144-148); a missing one
raises KeyError, caught by the outer handler. -/
def second_pass_keys : List String :=
  ["input_i", "input_tp", "input_lra", "input_thresh", "target_offset"]

/-- The external world of one normalize_audio call: the outcome of the
first-pass measurement, and the exit status (returncode == 0) of the
two-pass-apply and one-pass ffmpeg invocations. -/
structure NormEnv where
  measure : MeasureOut
  run2 : Bool
  run1 : Bool

/-- normalize_audio (loudsync_legacy.py lines 120-183), with explicit fuel
bounding the recursion depth (none = fuel exhausted before the call
returned). The result pairs the returned Bool with the trace of two_pass
flags of the normalize_audio invocations made, in order. With two_pass:
a failed measurement (status not OK, or falsy raw block) falls back to a
recursive call with two_pass false; a crash of measure_loudness or a
missing second-pass key is caught by the outer handler and returns false;
otherwise the second-pass command runs. Without two_pass the one-pass
command runs. -/
def normalize_audio : Nat → NormEnv → Bool → Option (Bool × List Bool)
  | 0, _, _ => none
  | _ + 1, env, false => some (env.run1, [false])
  | fuel + 1, env, true =>
    match env.measure with
    | MeasureOut.crash => some (false, [true])
    | MeasureOut.ret m =>
      if m.status ≠ MeasureStatus.ok ∨ rawFalsy m.raw_json then
        match normalize_audio fuel env false with
        | none => none
        | some (r, t) => some (r, true :: t)
      else
        match m.raw_json with
        | none => some (false, [true])
        | some j =>
          if second_pass_keys.all (fun k => (List.lookup k j).isSome) then
            some (env.run2, [true])
          else
            some (false, [true])

/-! ## pipeline.py: configuration -/

/-- The normalize group of PipelineConfig (pipeline.py lines 27-33). -/
structure NormalizeCfg where
  enabled : Bool
  preset : String
  lufs : ℚ
  tp : ℚ
  two_pass : Bool
  deriving DecidableEq

/-- The fade group of PipelineConfig (pipeline.py lines 34-39). -/
structure FadeCfg where
  enabled : Bool
  in_ms : ℚ
  out_ms : ℚ
  from_end_sec : ℚ
  deriving DecidableEq

/-- The crossfade group of PipelineConfig (pipeline.py lines 40-44). -/
structure CrossfadeCfg where
  enabled : Bool
  overlap_sec : ℚ
  curve : String
  deriving DecidableEq

/-- The output group of PipelineConfig (pipeline.py lines 45-49). -/
structure OutputCfg where
  codec : String
  sample_rate : ℤ
  format : String
  deriving DecidableEq

/-- The paths group of PipelineConfig (pipeline.py lines 50-53); ffmpeg is
None for auto-detection. -/
structure PathsCfg where
  ffmpeg : Option String
  cache_dir : String
  deriving DecidableEq

/-- PipelineConfig: the five configuration groups. -/
structure PipelineConfig where
  normalize : NormalizeCfg
  fade : FadeCfg
  crossfade : CrossfadeCfg
  output : OutputCfg
  paths : PathsCfg
  deriving DecidableEq

/-- The defaults set by the PipelineConfig constructor
(pipeline.py lines 26-53). -/
def defaultConfig : PipelineConfig :=
  { normalize := { enabled := true, preset := "-16", lufs := -16, tp := -1.5,
                   two_pass := true }
    fade := { enabled := false, in_ms := 300, out_ms := 1500, from_end_sec := 2 }
    crossfade := { enabled := false, overlap_sec := 2, curve := "tri" }
    output := { codec := "aac", sample_rate := 48000, format := "wav" }
    paths := { ffmpeg := none, cache_dir := "./_cache" } }

/-! ## pipeline.py: persisted configuration document (save_config /
load_config) -/

/-- The normalize group of a persisted configuration document: each key may
be absent. -/
structure NormalizeDoc where
  enabled : Option Bool
  preset : Option String
  lufs : Option ℚ
  tp : Option ℚ
  two_pass : Option Bool
  deriving DecidableEq

/-- The fade group of a persisted configuration document. -/
structure FadeDoc where
  enabled : Option Bool
  in_ms : Option ℚ
  out_ms : Option ℚ
  from_end_sec : Option ℚ
  deriving DecidableEq

/-- The crossfade group of a persisted configuration document. -/
structure CrossfadeDoc where
  enabled : Option Bool
  overlap_sec : Option ℚ
  curve : Option String
  deriving DecidableEq

/-- The output group of a persisted configuration document. -/
structure OutputDoc where
  codec : Option String
  sample_rate : Option ℤ
  format : Option String
  deriving DecidableEq

/-- The paths group of a persisted configuration document; the value of the
ffmpeg key is itself nullable. -/
structure PathsDoc where
  ffmpeg : Option (Option String)
  cache_dir : Option String
  deriving DecidableEq

/-- A persisted configuration document: the five groups, each group's keys
optional (dict.get with default empty dict on a missing group makes a
missing group the same as a group with no keys). -/
structure ConfigDoc where
  normalize : NormalizeDoc
  fade : FadeDoc
  crossfade : CrossfadeDoc
  output : OutputDoc
  paths : PathsDoc
  deriving DecidableEq

/-- The document with every key absent. -/
def emptyConfigDoc : ConfigDoc :=
  { normalize := { enabled := none, preset := none, lufs := none, tp := none,
                   two_pass := none }
    fade := { enabled := none, in_ms := none, out_ms := none,
              from_end_sec := none }
    crossfade := { enabled := none, overlap_sec := none, curve := none }
    output := { codec := none, sample_rate := none, format := none }
    paths := { ffmpeg := none, cache_dir := none } }

/-- dict.update on the normalize group: present keys overwrite. -/
def updNormalize (c : NormalizeCfg) (d : NormalizeDoc) : NormalizeCfg :=
  { enabled := d.enabled.getD c.enabled, preset := d.preset.getD c.preset,
    lufs := d.lufs.getD c.lufs, tp := d.tp.getD c.tp,
    two_pass := d.two_pass.getD c.two_pass }

/-- dict.update on the fade group: present keys overwrite. -/
def updFade (c : FadeCfg) (d : FadeDoc) : FadeCfg :=
  { enabled := d.enabled.getD c.enabled, in_ms := d.in_ms.getD c.in_ms,
    out_ms := d.out_ms.getD c.out_ms,
    from_end_sec := d.from_end_sec.getD c.from_end_sec }

/-- dict.update on the crossfade group: present keys overwrite. -/
def updCrossfade (c : CrossfadeCfg) (d : CrossfadeDoc) : CrossfadeCfg :=
  { enabled := d.enabled.getD c.enabled,
    overlap_sec := d.overlap_sec.getD c.overlap_sec,
    curve := d.curve.getD c.curve }

/-- dict.update on the output group: present keys overwrite. -/
def updOutput (c : OutputCfg) (d : OutputDoc) : OutputCfg :=
  { codec := d.codec.getD c.codec,
    sample_rate := d.sample_rate.getD c.sample_rate,
    format := d.format.getD c.format }

/-- dict.update on the paths group: present keys overwrite. -/
def updPaths (c : PathsCfg) (d : PathsDoc) : PathsCfg :=
  { ffmpeg := d.ffmpeg.getD c.ffmpeg,
    cache_dir := d.cache_dir.getD c.cache_dir }

/-- save_config (pipeline.py lines 288-301): the serialized document holds
every group with every key present, taken from the configuration. -/
def save_config (c : PipelineConfig) : ConfigDoc :=
  { normalize := { enabled := some c.normalize.enabled,
                   preset := some c.normalize.preset,
                   lufs := some c.normalize.lufs, tp := some c.normalize.tp,
                   two_pass := some c.normalize.two_pass }
    fade := { enabled := some c.fade.enabled, in_ms := some c.fade.in_ms,
              out_ms := some c.fade.out_ms,
              from_end_sec := some c.fade.from_end_sec }
    crossfade := { enabled := some c.crossfade.enabled,
                   overlap_sec := some c.crossfade.overlap_sec,
                   curve := some c.crossfade.curve }
    output := { codec := some c.output.codec,
                sample_rate := some c.output.sample_rate,
                format := some c.output.format }
    paths := { ffmpeg := some c.paths.ffmpeg,
               cache_dir := some c.paths.cache_dir } }

/-- load_config (pipeline.py lines 304-326): a fresh default PipelineConfig,
updated group by group from the loaded document when one could be read
(none models a missing or unreadable file, which leaves the defaults). -/
def load_config (doc : Option ConfigDoc) : PipelineConfig :=
  match doc with
  | none => defaultConfig
  | some d =>
    { normalize := updNormalize defaultConfig.normalize d.normalize
      fade := updFade defaultConfig.fade d.fade
      crossfade := updCrossfade defaultConfig.crossfade d.crossfade
      output := updOutput defaultConfig.output d.output
      paths := updPaths defaultConfig.paths d.paths }

/-! ## pipeline.py: stages and orchestrator -/

/-- The two per-stage cache directories (setup_cache_dirs, pipeline.py
lines 56-67), created under the cache root before any stage runs. -/
structure CacheDirs where
  normalized : String
  faded : String
  deriving DecidableEq

/-- setup_cache_dirs: the normalized and faded subdirectories of the cache
root. -/
def setup_cache_dirs (cache_dir : String) : CacheDirs :=
  { normalized := cache_dir ++ "/normalized", faded := cache_dir ++ "/faded" }

/-- cleanup_cache (pipeline.py lines 70-78): removes the cache directories
unless keep_files is set; returns whether they were removed. -/
def cleanup_cache (keep_files : Bool) : Bool :=
  !keep_files

/-- The external world of one pipeline run: per-file success of
normalize_audio and fade_file, and the outcome of the crossfade
invocation. -/
structure PipelineEnv where
  normOk : FsPath → Bool
  fadeOk : FsPath → Bool
  crossfadeOk : Bool

/-- The output path of the normalize stage for an input file
(pipeline.py lines 98-99): stem + "__norm" + suffix under the normalized
cache directory. -/
def normOutPath (dirs : CacheDirs) (p : FsPath) : FsPath :=
  { dir := dirs.normalized, stem := p.stem ++ "__norm", suffix := p.suffix }

/-- The output path of the fade stage for an input file (pipeline.py
lines 136-137): stem + "__fade" + suffix under the faded cache
directory. -/
def fadeOutPath (dirs : CacheDirs) (p : FsPath) : FsPath :=
  { dir := dirs.faded, stem := p.stem ++ "__fade", suffix := p.suffix }

/-- run_normalize_step (pipeline.py lines 81-117): disabled passes the list
through; enabled normalizes each file in order, keeping the output paths of
the successes and dropping failures. -/
def run_normalize_step (env : PipelineEnv) (cfg : PipelineConfig)
    (dirs : CacheDirs) (files : List FsPath) : List FsPath :=
  if cfg.normalize.enabled = false then files
  else
    files.filterMap fun p =>
      if env.normOk p then some (normOutPath dirs p) else none

/-- run_fade_step (pipeline.py lines 120-152): disabled or an empty list
passes through; enabled fades each file in order, keeping the output paths
of the successes and dropping failures. -/
def run_fade_step (env : PipelineEnv) (cfg : PipelineConfig)
    (dirs : CacheDirs) (files : List FsPath) : List FsPath :=
  if cfg.fade.enabled = false ∨ files = [] then files
  else
    files.filterMap fun p =>
      if env.fadeOk p then some (fadeOutPath dirs p) else none

/-- What run_crossfade_step did and returned. -/
structure CrossfadeStepResult where
  success : Bool
  copiedSingle : Bool
  crossfadeInvoked : Bool
  deriving DecidableEq

/-- run_crossfade_step (pipeline.py lines 155-182): with crossfade disabled
or fewer than two files, a single file is copied verbatim (success) and any
other count fails; otherwise crossfade_sequence is invoked and its outcome
is the step result. -/
def run_crossfade_step (env : PipelineEnv) (cfg : PipelineConfig)
    (files : List FsPath) : CrossfadeStepResult :=
  if cfg.crossfade.enabled = false ∨ files.length < 2 then
    if files.length = 1 then
      { success := true, copiedSingle := true, crossfadeInvoked := false }
    else
      { success := false, copiedSingle := false, crossfadeInvoked := false }
  else
    { success := env.crossfadeOk, copiedSingle := false,
      crossfadeInvoked := true }

/-- What a whole pipeline run did and returned: its Bool result, whether
cleanup_cache ran (removing the cache directories), the list entering the
final stage, and the final stage's result (none when the run aborted before
the final stage). -/
structure PipelineRun where
  success : Bool
  cleaned : Bool
  finalInput : Option (List FsPath)
  finalStage : Option CrossfadeStepResult
  deriving DecidableEq

/-- run_pipeline (pipeline.py lines 185-223): set up cache directories,
normalize (abort with failure when nothing survives), fade (an empty fade
result falls back to the normalize output), run the final crossfade-or-copy
step, then clean up the cache (keep_files false) and return the final
step's outcome. The early abort returns before the cleanup line. -/
def run_pipeline (env : PipelineEnv) (cfg : PipelineConfig)
    (input_files : List FsPath) : PipelineRun :=
  let dirs := setup_cache_dirs cfg.paths.cache_dir
  let normalized := run_normalize_step env cfg dirs input_files
  if normalized = [] then
    { success := false, cleaned := false, finalInput := none,
      finalStage := none }
  else
    let faded0 := run_fade_step env cfg dirs normalized
    let faded := if faded0 = [] then normalized else faded0
    let result := run_crossfade_step env cfg faded
    { success := result.success, cleaned := cleanup_cache false,
      finalInput := some faded, finalStage := some result }

/-! ## Theorems -/

/-- C3: fade_file resolves the fade-out start by precedence: a from-end
offset F gives max(D - F, 0) (0 whenever F > D), else an absolute start S
gives max(S, 0), else max(D - fadeOutDuration, 0). -/
theorem fade_out_start_resolution (D fout F S : ℚ) (os : Option ℚ) :
    fade_out_start D fout (some F) os = max (D - F) 0 ∧
    (F > D → fade_out_start D fout (some F) os = 0) ∧
    fade_out_start D fout none (some S) = max S 0 ∧
    fade_out_start D fout none none = max (D - fout) 0 := by
  refine ⟨rfl, ?_, rfl, rfl⟩
  intro h
  show max (D - F) 0 = 0
  exact max_eq_right (by linarith)

theorem fade_out_start_resolution_witness :
    fade_out_start 3 1 (some 5) none = 0 :=
  (fade_out_start_resolution 3 1 5 0 none).2.1 (by norm_num)

/-- C7: when both resolved fade durations are 0, fade_file emits the
explicit identity filter anull; otherwise it emits the fade filter chain,
which contains a fade-in anchored at 0 exactly when the fade-in duration is
positive and a fade-out at the resolved start exactly when the fade-out
duration is positive. -/
theorem fade_file_filter_chain (dur : ℚ) (i o : FsPath) (inms outms : ℚ)
    (fe fs : Option ℚ) (c : String) (fin fout st : ℚ)
    (hfin : fin = max (inms / 1000) 0) (hfout : fout = max (outms / 1000) 0)
    (hst : st = fade_out_start dur fout fe fs) :
    (fin = 0 ∧ fout = 0 →
      (fade_file dur i o inms outms fe fs c).af = AF.anull) ∧
    (fin > 0 ∨ fout > 0 →
      (fade_file dur i o inms outms fe fs c).af =
        AF.chain (fade_filters fin fout st) ∧
      (AFilter.fadeIn 0 fin ∈ fade_filters fin fout st ↔ fin > 0) ∧
      (AFilter.fadeOut st fout ∈ fade_filters fin fout st ↔ fout > 0)) := by
  subst hfin hfout hst
  constructor
  · rintro ⟨h1, h2⟩
    simp [fade_file, fade_af, fade_filters, h1, h2]
  · intro h
    by_cases h1 : max (inms / 1000) 0 > 0 <;>
      by_cases h2 : max (outms / 1000) 0 > 0 <;>
      simp [fade_file, fade_af, fade_filters, h1, h2] at h ⊢

/-- A concrete path used to instantiate theorems. -/
def wPathA : FsPath := { dir := "in", stem := "a", suffix := ".wav" }

/-- A second concrete path used to instantiate theorems. -/
def wPathB : FsPath := { dir := "in", stem := "b", suffix := ".wav" }

/-- A third concrete path used to instantiate theorems. -/
def wPathC : FsPath := { dir := "in", stem := "c", suffix := ".wav" }

theorem fade_file_filter_chain_witness :
    (fade_file 10 wPathA wPathB 300 1500 (some 2) none "aac").af =
      AF.chain
        (fade_filters (max (300 / 1000) 0) (max (1500 / 1000) 0)
          (fade_out_start 10 (max (1500 / 1000) 0) (some 2) none)) :=
  ((fade_file_filter_chain 10 wPathA wPathB 300 1500 (some 2) none "aac"
      (max (300 / 1000) 0) (max (1500 / 1000) 0)
      (fade_out_start 10 (max (1500 / 1000) 0) (some 2) none)
      rfl rfl rfl).2
    (Or.inl (by norm_num [lt_max_iff]))).1

theorem chainsAux_length (ov : ℚ) (c1 c2 : String) :
    ∀ (r i : Nat) (prev : String), ((chainsAux ov c1 c2 prev i r).1).length = r := by
  intro r
  induction r with
  | zero => intro i prev; rfl
  | succ n ih => intro i prev; simp [chainsAux, ih]

theorem chainsAux_get (ov : ℚ) (c1 c2 : String) :
    ∀ (r k i : Nat) (prev : String), k < r →
      ((chainsAux ov c1 c2 prev i r).1)[k]? =
        some { left := if k = 0 then prev else outLabel (i + k - 1),
               right := inLabel (i + k), out := outLabel (i + k),
               overlap := ov, c1 := c1, c2 := c2 } := by
  intro r
  induction r with
  | zero => intro k i prev h; omega
  | succ n ih =>
    intro k i prev h
    match k with
    | 0 => simp [chainsAux]
    | k + 1 =>
      have hik := ih k (i + 1) (outLabel i) (by omega)
      simp only [chainsAux, List.getElem?_cons_succ]
      rw [hik]
      by_cases hk0 : k = 0
      · subst hk0
        simp
      · have e1 : i + 1 + k - 1 = i + (k + 1) - 1 := by omega
        have e2 : i + 1 + k = i + (k + 1) := by omega
        simp [hk0, e1, e2]

theorem chainsAux_snd (ov : ℚ) (c1 c2 : String) :
    ∀ (r i : Nat) (prev : String), 0 < r →
      (chainsAux ov c1 c2 prev i r).2 = outLabel (i + r - 1) := by
  intro r
  induction r with
  | zero => intro i prev h; omega
  | succ n ih =>
    intro i prev _
    by_cases hn : n = 0
    · subst hn
      simp [chainsAux]
    · simp only [chainsAux]
      rw [ih (i + 1) (outLabel i) (by omega)]
      congr 1
      omega

/-- C2: for N >= 2 inputs, crossfade_sequence issues exactly one external
invocation whose filter graph has exactly N-1 sequential merge nodes in
input order: node at index k merges (for k = 0) input 0 with input 1, and
(for k > 0) the result of node k-1 with input k+1, into result label k+1;
the output maps from the final node's label. -/
theorem crossfade_sequence_chain (inputs : List FsPath) (outfile : FsPath)
    (ov : ℚ) (c1 c2 cod : String) (h : 2 ≤ inputs.length) :
    ∃ cmd : CrossfadeCmd,
      crossfade_sequence inputs outfile ov c1 c2 cod = Except.ok [cmd] ∧
      cmd.inputs = inputs ∧
      cmd.filter_complex.length = inputs.length - 1 ∧
      (∀ k, k < inputs.length - 1 →
        cmd.filter_complex[k]? =
          some { left := if k = 0 then inLabel 0 else outLabel k,
                 right := inLabel (k + 1), out := outLabel (k + 1),
                 overlap := ov, c1 := c1, c2 := c2 }) ∧
      cmd.mapLabel = outLabel (inputs.length - 1) := by
  refine ⟨{ inputs := inputs,
            filter_complex := (chainsAux ov c1 c2 (inLabel 0) 1 (inputs.length - 1)).1,
            mapLabel := (chainsAux ov c1 c2 (inLabel 0) 1 (inputs.length - 1)).2,
            codec := cod, outfile := outfile }, ?_, rfl, ?_, ?_, ?_⟩
  · simp [crossfade_sequence, h]
  · exact chainsAux_length ov c1 c2 _ _ _
  · intro k hk
    have hg := chainsAux_get ov c1 c2 (inputs.length - 1) k 1 (inLabel 0) hk
    have e1 : 1 + k - 1 = k := by omega
    have e2 : 1 + k = k + 1 := by omega
    rw [e1, e2] at hg
    exact hg
  · have e3 : 1 + (inputs.length - 1) - 1 = inputs.length - 1 := by omega
    rw [chainsAux_snd ov c1 c2 (inputs.length - 1) 1 (inLabel 0) (by omega), e3]

theorem crossfade_sequence_chain_witness :
    ∃ cmd : CrossfadeCmd,
      crossfade_sequence [wPathA, wPathB, wPathC] wPathA 2 "tri" "tri"
          "libmp3lame" = Except.ok [cmd] ∧
      cmd.inputs = [wPathA, wPathB, wPathC] ∧
      cmd.filter_complex.length = [wPathA, wPathB, wPathC].length - 1 ∧
      (∀ k, k < [wPathA, wPathB, wPathC].length - 1 →
        cmd.filter_complex[k]? =
          some { left := if k = 0 then inLabel 0 else outLabel k,
                 right := inLabel (k + 1), out := outLabel (k + 1),
                 overlap := 2, c1 := "tri", c2 := "tri" }) ∧
      cmd.mapLabel = outLabel ([wPathA, wPathB, wPathC].length - 1) :=
  crossfade_sequence_chain [wPathA, wPathB, wPathC] wPathA 2 "tri" "tri"
    "libmp3lame" (by decide)

/-- C4: a direct call to the crossfade builder with fewer than two inputs
fails on its precondition assert, before any external invocation is
built. -/
theorem crossfade_sequence_precondition (inputs : List FsPath)
    (outfile : FsPath) (ov : ℚ) (c1 c2 cod : String)
    (h : inputs.length < 2) :
    crossfade_sequence inputs outfile ov c1 c2 cod = Except.error () := by
  unfold crossfade_sequence
  rw [if_neg (by omega)]

theorem crossfade_sequence_precondition_witness :
    crossfade_sequence [wPathA] wPathA 2 "tri" "tri" "libmp3lame" =
      Except.error () :=
  crossfade_sequence_precondition [wPathA] wPathA 2 "tri" "tri" "libmp3lame"
    (by decide)

/-- C1: with two_pass, when the first measurement returns with a status
other than OK or with a falsy raw parameter set, normalize_audio falls back
to exactly one recursive call with two_pass false and terminates there
(fuel 2 suffices for every such environment), returning the one-pass
outcome even when that also fails; the invocation trace is exactly
[true, false]. -/
theorem normalize_audio_single_fallback (env : NormEnv) (fuel : Nat)
    (m : Measurement) (hfuel : 2 ≤ fuel)
    (hm : env.measure = MeasureOut.ret m)
    (hfail : m.status ≠ MeasureStatus.ok ∨ rawFalsy m.raw_json = true) :
    normalize_audio fuel env true = some (env.run1, [true, false]) := by
  obtain ⟨n, rfl⟩ : ∃ n, fuel = n + 2 := ⟨fuel - 2, by omega⟩
  simp [normalize_audio, hm, hfail]

/-- A concrete environment whose first measurement fails to parse and whose
one-pass invocation also fails. -/
def failEnv : NormEnv :=
  { measure := MeasureOut.ret (errorMeasurement MeasureStatus.jsonError),
    run2 := true, run1 := false }

theorem normalize_audio_single_fallback_witness :
    normalize_audio 2 failEnv true = some (false, [true, false]) :=
  normalize_audio_single_fallback failEnv 2
    (errorMeasurement MeasureStatus.jsonError) (by norm_num) rfl
    (Or.inl (by decide))

/-- C10: when the extracted block parses, measure_loudness reports status
OK with the absent loudness keys defaulting to 0 (all three absent yields
0, 0, 0 with the raw block kept); a parse failure yields the JSON_ERROR
dict; and a returned JSON_ERROR on a parsed block can only come from a
value whose float() conversion raises ValueError, which never happens for
an absent key (the default 0 converts). -/
theorem measure_ok_default_policy (j : JsonObj) (m : Measurement) :
    (List.lookup "input_i" j = none → List.lookup "input_lra" j = none →
      List.lookup "input_tp" j = none →
      measure_from_json (some j) =
        MeasureOut.ret
          { integrated_lufs := some 0, loudness_range := some 0,
            true_peak_dbtp := some 0, status := MeasureStatus.ok,
            raw_json := some j }) ∧
    measure_from_json none =
      MeasureOut.ret (errorMeasurement MeasureStatus.jsonError) ∧
    (measure_from_json (some j) = MeasureOut.ret m →
      m.status = MeasureStatus.jsonError →
      pyFloat (jget j "input_i" (Json.num 0)) = PyFloat.valueError ∨
      pyFloat (jget j "input_lra" (Json.num 0)) = PyFloat.valueError ∨
      pyFloat (jget j "input_tp" (Json.num 0)) = PyFloat.valueError) ∧
    (∀ k, List.lookup k j = none →
      pyFloat (jget j k (Json.num 0)) = PyFloat.ok 0) := by
  refine ⟨?_, rfl, ?_, ?_⟩
  · intro h1 h2 h3
    simp [measure_from_json, jget, h1, h2, h3, pyFloat]
  · intro hm hst
    rcases h1 : pyFloat (jget j "input_i" (Json.num 0)) with x1 | _ | _ <;>
      rcases h2 : pyFloat (jget j "input_lra" (Json.num 0)) with x2 | _ | _ <;>
        rcases h3 : pyFloat (jget j "input_tp" (Json.num 0)) with x3 | _ | _ <;>
          simp [measure_from_json, h1, h2, h3] at hm <;>
            first
            | exact Or.inl rfl
            | exact Or.inr (Or.inl rfl)
            | exact Or.inr (Or.inr rfl)
            | (subst hm; simp at hst)
  · intro k hk
    simp [jget, hk, pyFloat]

theorem measure_ok_default_policy_witness :
    measure_from_json (some ([] : List (String × Json))) =
      MeasureOut.ret
        { integrated_lufs := some 0, loudness_range := some 0,
          true_peak_dbtp := some 0, status := MeasureStatus.ok,
          raw_json := some ([] : List (String × Json)) } :=
  (measure_ok_default_policy [] (errorMeasurement MeasureStatus.ok)).1
    rfl rfl rfl

/-- C5: the final stage copies a single surviving asset verbatim and
succeeds without invoking any filter; with two or more survivors it invokes
the crossfade builder when crossfade is enabled, and with crossfade
disabled it fails without copying and without invoking anything (no
implicit concatenation). -/
theorem run_crossfade_step_policy (env : PipelineEnv) (cfg : PipelineConfig)
    (files : List FsPath) :
    (files.length = 1 →
      run_crossfade_step env cfg files =
        { success := true, copiedSingle := true, crossfadeInvoked := false }) ∧
    (2 ≤ files.length → cfg.crossfade.enabled = true →
      run_crossfade_step env cfg files =
        { success := env.crossfadeOk, copiedSingle := false,
          crossfadeInvoked := true }) ∧
    (2 ≤ files.length → cfg.crossfade.enabled = false →
      run_crossfade_step env cfg files =
        { success := false, copiedSingle := false,
          crossfadeInvoked := false }) := by
  refine ⟨?_, ?_, ?_⟩
  · intro h1
    simp [run_crossfade_step, h1]
  · intro h2 he
    simp only [run_crossfade_step]
    rw [if_neg (by simp [he]; omega)]
  · intro h2 he
    simp only [run_crossfade_step, he]
    rw [if_pos (Or.inl trivial), if_neg (by omega)]

theorem run_crossfade_step_policy_witness :
    run_crossfade_step
        { normOk := fun _ => true, fadeOk := fun _ => true,
          crossfadeOk := true }
        defaultConfig [wPathA] =
      { success := true, copiedSingle := true, crossfadeInvoked := false } :=
  (run_crossfade_step_policy
      { normOk := fun _ => true, fadeOk := fun _ => true,
        crossfadeOk := true }
      defaultConfig [wPathA]).1 rfl

/-- C6: the orchestrator aborts with failure when the normalize stage
leaves no survivors, but when the fade stage is enabled and produces an
empty result it falls back to the pre-fade list and continues into the
final stage; a disabled fade stage or an empty incoming list passes
through unchanged. -/
theorem run_pipeline_empty_policy (env : PipelineEnv) (cfg : PipelineConfig)
    (files N : List FsPath) :
    (run_normalize_step env cfg (setup_cache_dirs cfg.paths.cache_dir) files
        = [] →
      run_pipeline env cfg files =
        { success := false, cleaned := false, finalInput := none,
          finalStage := none }) ∧
    (run_normalize_step env cfg (setup_cache_dirs cfg.paths.cache_dir) files
        = N →
      N ≠ [] →
      run_fade_step env cfg (setup_cache_dirs cfg.paths.cache_dir) N = [] →
      (run_pipeline env cfg files).finalInput = some N ∧
      (run_pipeline env cfg files).finalStage =
        some (run_crossfade_step env cfg N) ∧
      (run_pipeline env cfg files).success =
        (run_crossfade_step env cfg N).success) ∧
    (cfg.fade.enabled = false ∨ N = [] →
      run_fade_step env cfg (setup_cache_dirs cfg.paths.cache_dir) N = N) := by
  refine ⟨?_, ?_, ?_⟩
  · intro h
    simp [run_pipeline, h]
  · intro hN hne hf
    simp [run_pipeline, hN, hne, hf]
  · intro h
    simp only [run_fade_step]
    rw [if_pos h]

/-- An environment in which every normalization succeeds and every fade
fails. -/
def fadeFailEnv : PipelineEnv :=
  { normOk := fun _ => true, fadeOk := fun _ => false, crossfadeOk := true }

/-- The default configuration with the fade stage enabled. -/
def fadeOnConfig : PipelineConfig :=
  { defaultConfig with fade := { defaultConfig.fade with enabled := true } }

theorem run_pipeline_empty_policy_witness :
    (run_pipeline fadeFailEnv fadeOnConfig [wPathA]).finalInput =
      some [normOutPath (setup_cache_dirs fadeOnConfig.paths.cache_dir)
        wPathA] :=
  ((run_pipeline_empty_policy fadeFailEnv fadeOnConfig [wPathA]
      [normOutPath (setup_cache_dirs fadeOnConfig.paths.cache_dir) wPathA]).2.1
    rfl (by decide) rfl).1

/-- An environment in which every normalization fails. -/
def noSurvivorEnv : PipelineEnv :=
  { normOk := fun _ => false, fadeOk := fun _ => true, crossfadeOk := true }

/-- C8 counterexample: a run that aborts because normalization leaves no
survivors returns failure without ever reaching the cleanup call, so the
per-stage cache directories (created at the start of the run) are not
removed — refuting removal at the end of every run. -/
theorem run_pipeline_cleanup_skipped :
    (run_pipeline noSurvivorEnv defaultConfig [wPathA]).success = false ∧
    (run_pipeline noSurvivorEnv defaultConfig [wPathA]).cleaned = false :=
  ⟨rfl, rfl⟩

/-- C8 amended: the cache directories are removed at the end of a run
exactly when the normalize stage leaves at least one survivor — then
removal happens whether the final stage succeeds or fails, always with the
retain flag unset; a run that aborts on an empty normalize result skips
cleanup. -/
theorem run_pipeline_cleanup_iff (env : PipelineEnv) (cfg : PipelineConfig)
    (files : List FsPath) :
    (run_pipeline env cfg files).cleaned = true ↔
      run_normalize_step env cfg (setup_cache_dirs cfg.paths.cache_dir) files
        ≠ [] := by
  by_cases h :
    run_normalize_step env cfg (setup_cache_dirs cfg.paths.cache_dir) files
      = []
  · simp [run_pipeline, h]
  · simp [run_pipeline, h, cleanup_cache]

/-- C9: reloading a saved configuration reproduces every field of every
group exactly, and any key absent from the persisted document keeps its
documented default (a missing document altogether yields the defaults). -/
theorem config_round_trip (c : PipelineConfig) (d : ConfigDoc) :
    load_config (some (save_config c)) = c ∧
    load_config none = defaultConfig ∧
    (d.normalize.enabled = none →
      (load_config (some d)).normalize.enabled
        = defaultConfig.normalize.enabled) ∧
    (d.normalize.preset = none →
      (load_config (some d)).normalize.preset
        = defaultConfig.normalize.preset) ∧
    (d.normalize.lufs = none →
      (load_config (some d)).normalize.lufs = defaultConfig.normalize.lufs) ∧
    (d.normalize.tp = none →
      (load_config (some d)).normalize.tp = defaultConfig.normalize.tp) ∧
    (d.normalize.two_pass = none →
      (load_config (some d)).normalize.two_pass
        = defaultConfig.normalize.two_pass) ∧
    (d.fade.enabled = none →
      (load_config (some d)).fade.enabled = defaultConfig.fade.enabled) ∧
    (d.fade.in_ms = none →
      (load_config (some d)).fade.in_ms = defaultConfig.fade.in_ms) ∧
    (d.fade.out_ms = none →
      (load_config (some d)).fade.out_ms = defaultConfig.fade.out_ms) ∧
    (d.fade.from_end_sec = none →
      (load_config (some d)).fade.from_end_sec
        = defaultConfig.fade.from_end_sec) ∧
    (d.crossfade.enabled = none →
      (load_config (some d)).crossfade.enabled
        = defaultConfig.crossfade.enabled) ∧
    (d.crossfade.overlap_sec = none →
      (load_config (some d)).crossfade.overlap_sec
        = defaultConfig.crossfade.overlap_sec) ∧
    (d.crossfade.curve = none →
      (load_config (some d)).crossfade.curve
        = defaultConfig.crossfade.curve) ∧
    (d.output.codec = none →
      (load_config (some d)).output.codec = defaultConfig.output.codec) ∧
    (d.output.sample_rate = none →
      (load_config (some d)).output.sample_rate
        = defaultConfig.output.sample_rate) ∧
    (d.output.format = none →
      (load_config (some d)).output.format = defaultConfig.output.format) ∧
    (d.paths.ffmpeg = none →
      (load_config (some d)).paths.ffmpeg = defaultConfig.paths.ffmpeg) ∧
    (d.paths.cache_dir = none →
      (load_config (some d)).paths.cache_dir
        = defaultConfig.paths.cache_dir) := by
  constructor
  · obtain ⟨⟨a1, a2, a3, a4, a5⟩, ⟨b1, b2, b3, b4⟩, ⟨c1, c2, c3⟩,
      ⟨d1, d2, d3⟩, ⟨e1, e2⟩⟩ := c
    simp [load_config, save_config, updNormalize, updFade, updCrossfade,
      updOutput, updPaths]
  refine ⟨rfl, ?_, ?_, ?_, ?_, ?_, ?_, ?_, ?_, ?_, ?_, ?_, ?_, ?_, ?_, ?_,
    ?_, ?_⟩ <;>
    (intro h;
     simp [load_config, updNormalize, updFade, updCrossfade, updOutput,
       updPaths, h])

theorem config_round_trip_witness :
    load_config (some (save_config defaultConfig)) = defaultConfig ∧
    (load_config (some emptyConfigDoc)).normalize.lufs
      = defaultConfig.normalize.lufs :=
  ⟨(config_round_trip defaultConfig emptyConfigDoc).1,
   (config_round_trip defaultConfig emptyConfigDoc).2.2.2.2.1 rfl⟩
